import Mathlib

set_option maxRecDepth 8000

namespace SmartShop

/-! Shallow embedding of the SmartShop.ai core engines: the negotiation
engine of `app/barter.py`, the recommendation engine of `app/recommender.py`,
their data model `app/models/product.py`, and the text helpers of
`app/utils/text_processor.py`.  Python floats are idealized as rationals,
and Python dicts keyed by strings are association lists kept in insertion
order.  The library primitive `difflib.SequenceMatcher(None, a, b).ratio()`
is external to the repository and is abstracted as an explicit function
parameter `seqSim`; likewise the regex/NLTK feature extractor of
`app/utils/feature_extractor.py` is abstracted as a parameter `extractFeats`
wherever it is consumed (the spec treats both as external collaborators).
All other logic is translated from the source. -/

/-- Python `round(x, 2)` rounds ties to the nearest even integer
(banker's rounding); this is the integer-level rounding it induces. -/
def roundHalfEven (q : ℚ) : ℤ :=
  if q - ⌊q⌋ < 1/2 then ⌊q⌋
  else if 1/2 < q - ⌊q⌋ then ⌊q⌋ + 1
  else if ⌊q⌋ % 2 = 0 then ⌊q⌋ else ⌊q⌋ + 1

/-- Python `round(x, 2)`: round to two decimal places, ties to even. -/
def round2 (q : ℚ) : ℚ := (roundHalfEven (q * 100) : ℚ) / 100

/-- Lookup in a Python dict embedded as an association list
(`d.get(k)` / `k in d`). -/
def pyDictGet {β : Type} : List (String × β) → String → Option β
  | [], _ => none
  | (k, v) :: t, key => if k = key then some v else pyDictGet t key

/-- Python dict assignment `d[k] = v`: replace the value of an existing key
in place, otherwise append the new key at the end (insertion order). -/
def pyDictSet {β : Type} : List (String × β) → String → β → List (String × β)
  | [], key, v => [(key, v)]
  | (k, w) :: t, key, v =>
    if k = key then (key, v) :: t else (k, w) :: pyDictSet t key v

/-- One step of Python's stable sort in descending key order: insert `a`
into an already descending list, before the first element whose key is not
greater than `a`'s (so earlier-inserted equal keys stay in front). -/
def pyInsertDescBy {α : Type} (key : α → ℚ) (a : α) : List α → List α
  | [] => [a]
  | b :: t => if key b ≤ key a then a :: b :: t else b :: pyInsertDescBy key a t

/-- Python `list.sort(key=key, reverse=True)` / `sorted(..., reverse=True)`:
a stable sort into weakly descending key order. -/
def pySortDescBy {α : Type} (key : α → ℚ) (l : List α) : List α :=
  l.foldr (pyInsertDescBy key) []

/-- The characters of Python's `string.punctuation`. -/
def pyPunctuationChars : List Char :=
  "!\"#$%&\x27()*+,-./:;<=>?@[\\]^_`\x7b|\x7d~".toList

/-- Characters matched by the regex class `\s` on ASCII text. -/
def isPySpace (c : Char) : Bool :=
  c = ' ' || c = '\t' || c = '\n' || c = '\r' || c = '\x0b' || c = '\x0c'

/-- Split a character list into maximal runs of non-whitespace characters
(the accumulator holds the current word reversed). -/
def pyWordsAux : List Char → List Char → List (List Char)
  | [], acc => if acc = [] then [] else [acc.reverse]
  | c :: t, acc =>
    if isPySpace c then
      if acc = [] then pyWordsAux t [] else acc.reverse :: pyWordsAux t []
    else pyWordsAux t (c :: acc)

/-- Join words with single spaces. -/
def joinWordsWithSpace : List (List Char) → List Char
  | [] => []
  | [w] => w
  | w :: ws => w ++ ' ' :: joinWordsWithSpace ws

/-- `clean_text` (app/utils/text_processor.py): empty input maps to `""`;
otherwise lowercase, delete punctuation, collapse whitespace runs to single
spaces and strip the ends (the `re.sub(r'\s+', ' ', text).strip()` step is
realized by splitting into words and rejoining). -/
def clean_text (text : String) : String :=
  if text = "" then ""
  else
    let lowered := text.toList.map Char.toLower
    let depunct := lowered.filter (fun c => ¬ c ∈ pyPunctuationChars)
    String.mk (joinWordsWithSpace (pyWordsAux depunct []))

/-- `calculate_text_similarity` (app/utils/text_processor.py): 0 when either
string is empty, else the `SequenceMatcher` ratio of the cleaned strings. -/
def calculate_text_similarity (seqSim : String → String → ℚ)
    (text1 text2 : String) : ℚ :=
  if text1 = "" ∨ text2 = "" then 0
  else seqSim (clean_text text1) (clean_text text2)

/-- Values stored in a product's feature dict (`Dict[str, Any]`); in this
code base they are regex-captured strings or keyword lists. -/
inductive FeatureValue where
  | str (s : String)
  | strs (l : List String)
deriving DecidableEq

/-- Python `str(value)` for a feature value; a list renders in Python's
list-repr form. -/
def pyStrOfFeature : FeatureValue → String
  | .str s => s
  | .strs l =>
      "[" ++ String.intercalate ", " (l.map (fun s => "\x27" ++ s ++ "\x27")) ++ "]"

/-- Python `set(value)` as used on `category_keywords` values: a list gives
its set of elements, a string gives its set of characters. -/
def keywordSet : FeatureValue → List String
  | .strs l => l.dedup
  | .str s => (s.toList.map Char.toString).dedup

/-- `ProductModel` (app/models/product.py). -/
structure Product where
  id : String
  title : String
  price : Option ℚ := none
  rating : Option ℚ := none
  reviews : Option ℤ := none
  brand : Option String := none
  product_link : String := ""
  category : String
  features : List (String × FeatureValue) := []
  image_url : Option String := none
deriving DecidableEq

/-- `get_feature_importance_weights` (app/utils/feature_extractor.py). -/
def get_feature_importance_weights : List (String × ℚ) :=
  [("ram", 8/10), ("storage", 7/10), ("processor", 9/10),
   ("screen_size", 6/10), ("resolution", 5/10), ("battery", 4/10),
   ("brand", 3/10), ("color", 2/10), ("bluetooth", 3/10),
   ("waterproof", 3/10), ("wireless", 3/10), ("noise_cancelling", 4/10),
   ("material", 3/10), ("weight", 3/10), ("category_keywords", 6/10)]

/-- Accumulation step of the feature-similarity loop of
`calculate_similarity_score`: given `(feature_similarity, feature_count)`
and a feature name common to both products, add that feature's weighted
contribution.  Keys missing from the weight table contribute nothing. -/
def featureStep (seqSim : String → String → ℚ) (product1 product2 : Product)
    (acc : ℚ × ℕ) (feature_name : String) : ℚ × ℕ :=
  match pyDictGet get_feature_importance_weights feature_name with
  | none => acc
  | some weight =>
    if feature_name = "category_keywords" then
      let keywords1 := keywordSet ((pyDictGet product1.features feature_name).getD (.strs []))
      let keywords2 := keywordSet ((pyDictGet product2.features feature_name).getD (.strs []))
      if keywords1 ≠ [] ∧ keywords2 ≠ [] then
        let jaccard : ℚ :=
          ((keywords1.filter (fun k => k ∈ keywords2)).length : ℚ) /
            (((keywords1 ++ keywords2).dedup).length : ℚ)
        (acc.1 + jaccard * weight, acc.2 + 1)
      else acc
    else
      let value1 := pyStrOfFeature ((pyDictGet product1.features feature_name).getD (.str ""))
      let value2 := pyStrOfFeature ((pyDictGet product2.features feature_name).getD (.str ""))
      if value1 ≠ "" ∧ value2 ≠ "" then
        (acc.1 + seqSim value1 value2 * weight, acc.2 + 1)
      else acc

/-- `calculate_similarity_score` (app/recommender.py): 0 across categories;
otherwise 30% title similarity plus 70% normalized weighted feature
similarity over the features present in both products.  Python iterates the
key intersection as an unordered set; since the accumulated sum and count
are order-independent over ℚ, the intersection is traversed here in
`product1`'s key order, deduplicated. -/
def calculate_similarity_score (seqSim : String → String → ℚ)
    (product1 product2 : Product) : ℚ :=
  if product1.category ≠ product2.category then 0
  else
    let title_similarity :=
      calculate_text_similarity seqSim product1.title product2.title * (3/10)
    let commonKeys := ((product1.features.map Prod.fst).dedup).filter
      (fun k => (pyDictGet product2.features k).isSome)
    let fs := commonKeys.foldl (featureStep seqSim product1 product2) (0, 0)
    let feature_similarity := if fs.2 > 0 then fs.1 / (fs.2 : ℚ) * (7/10) else fs.1
    title_similarity + feature_similarity

/-- `find_similar_products` (app/recommender.py): score every other product
against the query, keep strictly positive scores, stable-sort descending by
score and truncate to `limit`. -/
def find_similar_products (seqSim : String → String → ℚ)
    (products : List Product) (product : Product) (limit : ℕ) :
    List (Product × ℚ) :=
  let similarities := products.filterMap (fun other_product =>
    if other_product.id = product.id then none
    else
      let similarity := calculate_similarity_score seqSim product other_product
      if similarity > 0 then some (other_product, similarity) else none)
  (pySortDescBy (fun x => x.2) similarities).take limit

/-- Python `int(''.join(filter(str.isdigit, value)))` on a feature value,
as used for the `ram`/`storage` comparisons: `none` models the caught
`ValueError` when no digits remain.  On a string, digit characters are
kept; on a list, elements that are (nonempty) all-digit strings are kept. -/
def parseNumFeature : FeatureValue → Option ℕ
  | .str s =>
    let ds := s.toList.filter Char.isDigit
    if ds = [] then none
    else some (ds.foldl (fun n c => 10 * n + (c.toNat - 48)) 0)
  | .strs l =>
    let ds := (l.filter (fun e => e ≠ "" && e.toList.all Char.isDigit)).flatMap String.toList
    if ds = [] then none
    else some (ds.foldl (fun n c => 10 * n + (c.toNat - 48)) 0)

/-- The rating clause of the `is_better` test of `find_better_alternatives`:
the other product is rated and the reference is not, or both are rated and
the other is strictly higher. -/
def ratingBetter (product other_product : Product) : Bool :=
  (product.rating.isNone && other_product.rating.isSome) ||
    (match product.rating, other_product.rating with
     | some r1, some r2 => decide (r2 > r1)
     | _, _ => false)

/-- The `ram`/`storage` clause of the `is_better` test: both products carry
the feature, both parse to a number, and the other's number is strictly
larger.  Parse failures are the silently caught `ValueError`s. -/
def numFeatureBetter (product other_product : Product) (name : String) : Bool :=
  match pyDictGet product.features name, pyDictGet other_product.features name with
  | some v1, some v2 =>
    match parseNumFeature v1, parseNumFeature v2 with
    | some n1, some n2 => decide (n2 > n1)
    | _, _ => false
  | _, _ => false

/-- One iteration of the `is_better` loop of `find_better_alternatives`.
The review-count test `other_product.reviews > product.reviews * 1.5` is
executed unconditionally on `Optional[int]` fields, so when either reviews
count is absent Python raises `TypeError`; that abort is modelled as
`none`. -/
def is_better_check (product other_product : Product) : Option Bool :=
  match product.reviews, other_product.reviews with
  | some r1, some r2 =>
    some (ratingBetter product other_product
      || decide ((r2 : ℚ) > (r1 : ℚ) * (3/2))
      || numFeatureBetter product other_product "ram"
      || numFeatureBetter product other_product "storage")
  | _, _ => none

/-- `find_better_alternatives` (app/recommender.py): among the top-10
similar products keep those judged better, re-sort by similarity and
truncate.  The result is `none` when the loop raises `TypeError` on an
absent reviews count (the iteration aborts at the first offender, exactly
as the `Option` bind does). -/
def find_better_alternatives (seqSim : String → String → ℚ)
    (products : List Product) (product : Product) (limit : ℕ) :
    Option (List (Product × ℚ)) :=
  let similar_products := find_similar_products seqSim products product 10
  (similar_products.mapM (fun x =>
      (is_better_check product x.1).map (fun b => (x, b)))).map
    (fun checked =>
      let better_alternatives := (checked.filter (fun y => y.2)).map (fun y => y.1)
      (pySortDescBy (fun x => x.2) better_alternatives).take limit)

/-- `get_personalized_recommendations` (app/recommender.py).  With an empty
view history: keep only the products that carry a rating, stable-sort them
by rating descending (`key=lambda p: p.rating or 0`, which on a present
rating is the rating itself) and truncate.  Otherwise: every non-viewed
product is scored with the sum of its similarity to each viewed product
(Python seeds each entry with 0 and accumulates, so every non-viewed
product receives an entry), then sorted and truncated. -/
def get_personalized_recommendations (seqSim : String → String → ℚ)
    (products viewed_products : List Product) (limit : ℕ) : List Product :=
  if viewed_products = [] then
    (pySortDescBy (fun p => p.rating.getD 0)
      (products.filter (fun p => p.rating.isSome))).take limit
  else
    let viewedIds := viewed_products.map (fun p => p.id)
    let scored_products := (products.filter (fun p => ¬ p.id ∈ viewedIds)).map
      (fun p =>
        (p, (viewed_products.map
          (fun v => calculate_similarity_score seqSim p v)).sum))
    ((pySortDescBy (fun x => x.2) scored_products).take limit).map Prod.fst

/-- `find_relevant_products` (app/recommender.py): blend 70% title
similarity to the cleaned query with 30% fraction of query features present
in the product, sort descending, truncate.  `extractFeats` abstracts
`extract_features_from_title`. -/
def find_relevant_products (seqSim : String → String → ℚ)
    (extractFeats : String → List (String × FeatureValue))
    (query : String) (products : List Product) (limit : ℕ) : List Product :=
  let clean_query := clean_text query
  let product_scores := products.map (fun product =>
    let title_similarity := calculate_text_similarity seqSim clean_query product.title
    let query_features := extractFeats query
    let feature_match := (query_features.filter
      (fun kv => (pyDictGet product.features kv.1).isSome)).length
    let total_score := title_similarity * (7/10) +
      ((feature_match : ℚ) / ((max 1 query_features.length : ℕ) : ℚ)) * (3/10)
    (product, total_score))
  ((pySortDescBy (fun x => x.2) product_scores).take limit).map Prod.fst

/-- One round record of a negotiation (the dict appended by
`evaluate_offer`). -/
structure NegotiationRound where
  round : ℕ
  customer_offer : ℚ
  min_acceptable : ℚ
  counter_offer : Option ℚ := none
deriving DecidableEq

/-- `NegotiationHistory` (app/models/product.py). -/
structure NegotiationHistory where
  product_id : String
  original_price : ℚ
  negotiation_rounds : List NegotiationRound := []
  final_price : Option ℚ := none
  status : String := "pending"
deriving DecidableEq

/-- The mutable state and configuration of `NegotiationEngine`
(app/barter.py); the defaults are the constructor defaults. -/
structure NegotiationEngine where
  base_delivery_cost : ℚ := 5
  min_profit_percent : ℚ := 15
  negotiation_history : List (String × NegotiationHistory) := []
deriving DecidableEq

/-- The result dict returned by `evaluate_offer`. -/
structure OfferResult where
  status : String
  message : String
  counter_price : Option ℚ := none
  final_price : Option ℚ := none
deriving DecidableEq

/-- `calculate_min_acceptable_price` (app/barter.py): 0.0 on a missing
price; otherwise reverse a 30% markup, add the delivery cost and the
minimum profit, and round to cents. -/
def calculate_min_acceptable_price (e : NegotiationEngine) (product : Product) : ℚ :=
  match product.price with
  | none => 0
  | some price =>
    let estimated_base_cost := price / (13/10)
    let total_base := estimated_base_cost + e.base_delivery_cost
    let min_profit := total_base * (e.min_profit_percent / 100)
    round2 (total_base + min_profit)

/-- `get_negotiation_round` (app/barter.py): 1-based round counter. -/
def get_negotiation_round (e : NegotiationEngine) (product_id : String) : ℕ :=
  match pyDictGet e.negotiation_history product_id with
  | none => 1
  | some h => h.negotiation_rounds.length + 1

/-- The accept threshold chosen per round in `evaluate_offer`. -/
def accept_threshold (negotiation_round : ℕ) : ℚ :=
  if negotiation_round = 1 then 90/100
  else if negotiation_round = 2 then 85/100
  else 82/100

/-- The counter threshold chosen per round in `evaluate_offer`. -/
def counter_threshold (negotiation_round : ℕ) : ℚ :=
  if negotiation_round = 1 then 80/100
  else if negotiation_round = 2 then 75/100
  else 70/100

/-- The history record lazily created on a product's first offer
(`NegotiationHistory(product_id=..., original_price=...)`). -/
def initialHistory (product_id : String) (original_price : ℚ) : NegotiationHistory :=
  { product_id := product_id, original_price := original_price }

/-- `negotiation_rounds[-1]["counter_offer"] = c`: set the counter offer on
the last round record. -/
def setLastCounter (c : ℚ) : List NegotiationRound → List NegotiationRound
  | [] => []
  | [r] => [{ r with counter_offer := some c }]
  | r :: t => r :: setLastCounter c t

/-- `evaluate_offer` (app/barter.py), as a state transformer on the engine.
`gen` abstracts `generate_negotiation_response` (a pure template chooser in
app/utils/text_processor.py whose output is only carried, never inspected).
The Python method mutates the stored history object in place between its
steps; the net effect on the engine after the call is the single `pyDictSet`
of the finished record performed here. -/
def evaluate_offer (gen : String → String → ℚ → ℚ → ℕ → String)
    (e : NegotiationEngine) (product : Product) (offered_price : ℚ) :
    OfferResult × NegotiationEngine :=
  match product.price with
  | none =>
    ({ status := "error",
       message := "Product price not available for negotiation." }, e)
  | some price =>
    let product_id := product.id
    let negotiation_round := get_negotiation_round e product_id
    let hist0 :=
      match pyDictGet e.negotiation_history product_id with
      | some h => h
      | none => initialHistory product_id price
    let min_acceptable := calculate_min_acceptable_price e product
    let hist1 := { hist0 with
      negotiation_rounds := hist0.negotiation_rounds ++
        [{ round := negotiation_round, customer_offer := offered_price,
           min_acceptable := min_acceptable }] }
    let accept_price := price * accept_threshold negotiation_round
    let counter_price := price * counter_threshold negotiation_round
    if offered_price ≥ accept_price then
      let hist2 := { hist1 with status := "accepted", final_price := some offered_price }
      ({ status := "accepted",
         message := gen "accepted" product.title offered_price price negotiation_round,
         final_price := some offered_price },
       { e with negotiation_history := pyDictSet e.negotiation_history product_id hist2 })
    else if offered_price ≥ counter_price ∧ offered_price ≥ min_acceptable then
      let counter_offer := round2 (offered_price + (price - offered_price) * (4/10))
      let hist2 := { hist1 with negotiation_rounds := setLastCounter counter_offer hist1.negotiation_rounds }
      ({ status := "counter",
         message := gen "counter" product.title offered_price price negotiation_round,
         counter_price := some counter_offer },
       { e with negotiation_history := pyDictSet e.negotiation_history product_id hist2 })
    else
      let hist2 := if negotiation_round ≥ 3 then { hist1 with status := "rejected" } else hist1
      ({ status := "rejected",
         message := gen "rejected" product.title offered_price price negotiation_round },
       { e with negotiation_history := pyDictSet e.negotiation_history product_id hist2 })

/-- The history record stored by the reject branch of `evaluate_offer`:
the pre-call record (or a freshly created one) with the new round record
appended, and the status forced to "rejected" from round 3 on. -/
def rejectedHistoryAfter (e : NegotiationEngine) (product : Product)
    (price offered_price : ℚ) : NegotiationHistory :=
  let hist0 :=
    match pyDictGet e.negotiation_history product.id with
    | some h => h
    | none => initialHistory product.id price
  let hist1 := { hist0 with
    negotiation_rounds := hist0.negotiation_rounds ++
      [{ round := get_negotiation_round e product.id,
         customer_offer := offered_price,
         min_acceptable := calculate_min_acceptable_price e product,
         counter_offer := none }] }
  if get_negotiation_round e product.id ≥ 3
  then { hist1 with status := "rejected" } else hist1

/-- A trivial message generator used in the concrete scenarios; messages
are produced by `generate_negotiation_response` and carried opaquely. -/
def genTrivial : String → String → ℚ → ℚ → ℕ → String := fun _ _ _ _ _ => ""

/-- A similarity primitive used in concrete scenarios: 1 on identical
strings and 0 otherwise — the values `SequenceMatcher(None, a, b).ratio()`
takes when `a = b` and when the strings share no characters. -/
def seqSimEq : String → String → ℚ := fun a b => if a = b then 1 else 0

/-- A default-configured engine (`NegotiationEngine()`). -/
def engDefault : NegotiationEngine := {}

/-- An engine with zero delivery cost and zero minimum profit. -/
def engZero : NegotiationEngine :=
  { base_delivery_cost := 0, min_profit_percent := 0 }

/-- An engine configured with a -200% minimum profit. -/
def engNegProfit : NegotiationEngine := { min_profit_percent := -200 }

/-- A product without a price. -/
def prodNoPrice : Product := { id := "np", title := "t", category := "c" }

/-- A product priced at 100. -/
def prodPrice100 : Product :=
  { id := "p100", title := "t", price := some 100, category := "c" }

/-- A product priced at -10. -/
def prodNegPrice : Product :=
  { id := "neg", title := "t", price := some (-10), category := "c" }

/-- A product priced at 50. -/
def prodPrice50 : Product :=
  { id := "p50", title := "t", price := some 50, category := "c" }

/-- A product priced at 13/10. -/
def prodP13 : Product :=
  { id := "a13", title := "t", price := some (13/10), category := "c" }

/-- A product priced at 26/10. -/
def prodP26 : Product :=
  { id := "a26", title := "t", price := some (26/10), category := "c" }

/-- An unrated catalog product. -/
def prodUnrated : Product := { id := "u", title := "t", category := "c" }

/-- A catalog product rated 4. -/
def prodRated : Product :=
  { id := "r", title := "t", rating := some 4, category := "c" }

/-- A catalog product rated 5. -/
def prodRated5 : Product :=
  { id := "r5", title := "t", rating := some 5, category := "c" }

/-- A query product whose reviews count is absent. -/
def prodNoReviews : Product :=
  { id := "q", title := "phone", category := "electronics" }

/-- A catalog product identical in title and category, with reviews. -/
def prodWithReviews : Product :=
  { id := "o", title := "phone", category := "electronics",
    rating := some 4, reviews := some 10 }

/-- A query product with a reviews count. -/
def prodQueryRev : Product :=
  { id := "q2", title := "phone", category := "electronics",
    reviews := some 3 }

/-- A cross-category product. -/
def prodOtherCat : Product :=
  { id := "x", title := "phone", category := "books", reviews := some 7 }

/-! Arithmetic facts about the rounding helper. -/

theorem roundHalfEven_ge_floor (q : ℚ) : ⌊q⌋ ≤ roundHalfEven q := by
  unfold roundHalfEven
  split_ifs <;> omega

theorem roundHalfEven_le_floor_add_one (q : ℚ) : roundHalfEven q ≤ ⌊q⌋ + 1 := by
  unfold roundHalfEven
  split_ifs <;> omega

theorem roundHalfEven_mono {a b : ℚ} (h : a ≤ b) :
    roundHalfEven a ≤ roundHalfEven b := by
  rcases lt_or_eq_of_le (Int.floor_le_floor h) with hf | hf
  · calc roundHalfEven a ≤ ⌊a⌋ + 1 := roundHalfEven_le_floor_add_one a
      _ ≤ ⌊b⌋ := by omega
      _ ≤ roundHalfEven b := roundHalfEven_ge_floor b
  · unfold roundHalfEven
    rw [hf]
    split_ifs <;> first | omega | linarith

theorem round2_mono {a b : ℚ} (h : a ≤ b) : round2 a ≤ round2 b := by
  unfold round2
  have h1 : a * 100 ≤ b * 100 := by linarith
  have h2 := roundHalfEven_mono h1
  have h3 : (roundHalfEven (a * 100) : ℚ) ≤ (roundHalfEven (b * 100) : ℚ) := by
    exact_mod_cast h2
  linarith

/-! Facts about the round-dependent thresholds. -/

theorem accept_threshold_le_one (r : ℕ) : accept_threshold r ≤ 1 := by
  unfold accept_threshold
  split_ifs <;> norm_num

theorem le_accept_threshold (r : ℕ) : 82/100 ≤ accept_threshold r := by
  unfold accept_threshold
  split_ifs <;> norm_num

theorem le_counter_threshold (r : ℕ) : 70/100 ≤ counter_threshold r := by
  unfold counter_threshold
  split_ifs <;> norm_num

/-- C10: when the product price is absent, `calculate_min_acceptable_price`
returns exactly 0 — the missing-price failure is signalled by the numeric
sentinel 0.0, not by an error value or an exception; and a caller cannot
tell it apart from a genuinely zero floor, since a priced configuration can
also compute the floor 0. -/
theorem missing_price_sentinel_zero (e : NegotiationEngine) (product : Product)
    (h : product.price = none) :
    calculate_min_acceptable_price e product = 0 ∧
    ∃ (e2 : NegotiationEngine) (p2 : Product),
      p2.price.isSome ∧ calculate_min_acceptable_price e2 p2 = 0 := by
  constructor
  · simp [calculate_min_acceptable_price, h]
  · refine ⟨{ base_delivery_cost := 0 },
      { id := "z", title := "t", price := some 0, category := "c" }, rfl, ?_⟩
    norm_num [calculate_min_acceptable_price, round2, roundHalfEven]

theorem missing_price_sentinel_zero_witness :
    calculate_min_acceptable_price engDefault prodNoPrice = 0 ∧
    ∃ (e2 : NegotiationEngine) (p2 : Product),
      p2.price.isSome ∧ calculate_min_acceptable_price e2 p2 = 0 :=
  missing_price_sentinel_zero engDefault prodNoPrice rfl

/-- C3: on a product without a price, `evaluate_offer` returns a result
whose status is "error" and leaves the engine (in particular the whole
negotiation-history map) completely unchanged. -/
theorem evaluate_offer_missing_price (gen : String → String → ℚ → ℚ → ℕ → String)
    (e : NegotiationEngine) (product : Product) (offered_price : ℚ)
    (h : product.price = none) :
    (evaluate_offer gen e product offered_price).1.status = "error" ∧
    (evaluate_offer gen e product offered_price).2 = e := by
  simp [evaluate_offer, h]

theorem evaluate_offer_missing_price_witness :
    (evaluate_offer genTrivial engDefault prodNoPrice 10).1.status = "error" ∧
    (evaluate_offer genTrivial engDefault prodNoPrice 10).2 = engDefault :=
  evaluate_offer_missing_price genTrivial engDefault prodNoPrice 10 rfl

/-- C4 (amended): whenever `evaluate_offer` takes the counter branch, the
returned counter price is `round(offered + (price - offered) * 0.4, 2)`.
The spec's 100/85 example does not reach this branch under the default
configuration (see the counterexample); it does as soon as the minimum
acceptable price is at most the offer, e.g. with zero delivery cost and
zero minimum profit. -/
theorem evaluate_offer_counter_formula (gen : String → String → ℚ → ℚ → ℕ → String)
    (e : NegotiationEngine) (product : Product) (price offered_price : ℚ)
    (hp : product.price = some price)
    (hacc : ¬ offered_price ≥ price * accept_threshold (get_negotiation_round e product.id))
    (hctr : offered_price ≥ price * counter_threshold (get_negotiation_round e product.id))
    (hmin : offered_price ≥ calculate_min_acceptable_price e product) :
    (evaluate_offer gen e product offered_price).1.status = "counter" ∧
    (evaluate_offer gen e product offered_price).1.counter_price =
      some (round2 (offered_price + (price - offered_price) * (4/10))) := by
  simp only [evaluate_offer, hp]
  rw [if_neg hacc, if_pos (show _ ∧ _ from ⟨hctr, hmin⟩)]
  exact ⟨rfl, rfl⟩

/-- C4 counterexample: with the default constants (delivery 5, profit 15%)
the minimum acceptable price of a 100-priced product is 94.21, so the
spec's example offer of 85 in round 1 is rejected, not countered. -/
theorem default_engine_price100_offer85_rejected :
    calculate_min_acceptable_price engDefault prodPrice100 = 9421/100 ∧
    (evaluate_offer genTrivial engDefault prodPrice100 85).1.status = "rejected" := by
  constructor
  · norm_num [calculate_min_acceptable_price, engDefault, prodPrice100, round2, roundHalfEven]
  · norm_num [evaluate_offer, get_negotiation_round, pyDictGet, engDefault, prodPrice100,
      calculate_min_acceptable_price, accept_threshold, counter_threshold,
      round2, roundHalfEven, genTrivial]

theorem evaluate_offer_counter_formula_witness :
    (evaluate_offer genTrivial engZero prodPrice100 85).1.status = "counter" ∧
    (evaluate_offer genTrivial engZero prodPrice100 85).1.counter_price = some 91 := by
  have h := evaluate_offer_counter_formula genTrivial engZero prodPrice100 100 85 rfl
    (by norm_num [get_negotiation_round, pyDictGet, engZero, prodPrice100, accept_threshold])
    (by norm_num [get_negotiation_round, pyDictGet, engZero, prodPrice100, counter_threshold])
    (by norm_num [calculate_min_acceptable_price, engZero, prodPrice100, round2, roundHalfEven])
  refine ⟨h.1, ?_⟩
  rw [h.2]
  norm_num [round2, roundHalfEven]

/-- C5 (amended): for a product with a present nonnegative price,
`evaluate_offer` at exactly the asking price is accepted in every round,
with the offered price as final price.  (For a negative price the accept
threshold lies strictly above the price itself, see the counterexample.) -/
theorem evaluate_offer_accepts_full_price (gen : String → String → ℚ → ℚ → ℕ → String)
    (e : NegotiationEngine) (product : Product) (price : ℚ)
    (hp : product.price = some price) (hpos : 0 ≤ price) :
    (evaluate_offer gen e product price).1.status = "accepted" ∧
    (evaluate_offer gen e product price).1.final_price = some price := by
  have hacc : price ≥ price * accept_threshold (get_negotiation_round e product.id) := by
    calc price * accept_threshold (get_negotiation_round e product.id)
        ≤ price * 1 := mul_le_mul_of_nonneg_left (accept_threshold_le_one _) hpos
      _ = price := mul_one price
  simp only [evaluate_offer, hp]
  rw [if_pos hacc]
  exact ⟨rfl, rfl⟩

/-- C5 counterexample: at the (present) price -10, offering exactly the
price is not accepted — the round-1 accept threshold is -9 and the offer
is rejected outright. -/
theorem offer_at_negative_price_not_accepted :
    prodNegPrice.price = some (-10) ∧
    (evaluate_offer genTrivial engDefault prodNegPrice (-10)).1.status = "rejected" := by
  refine ⟨rfl, ?_⟩
  norm_num [evaluate_offer, get_negotiation_round, pyDictGet, engDefault, prodNegPrice,
    calculate_min_acceptable_price, accept_threshold, counter_threshold,
    round2, roundHalfEven, genTrivial]

theorem evaluate_offer_accepts_full_price_witness :
    (evaluate_offer genTrivial engDefault prodPrice50 50).1.status = "accepted" ∧
    (evaluate_offer genTrivial engDefault prodPrice50 50).1.final_price = some 50 :=
  evaluate_offer_accepts_full_price genTrivial engDefault prodPrice50 50 rfl (by norm_num)

/-- C7 (amended): with the configuration constants held fixed and a
minimum-profit percentage of at least -100 (so the profit multiplier is
nonnegative; the default is 15), the minimum acceptable price is monotone
in the product price: `p1 < p2` gives a floor for `p1` at most the floor
for `p2` (the two floors can coincide after rounding to cents, which is the
claim's non-strict reading). -/
theorem calculate_min_acceptable_price_mono (e : NegotiationEngine)
    (p1 p2 : Product) (q1 q2 : ℚ)
    (h1 : p1.price = some q1) (h2 : p2.price = some q2)
    (hm : -100 ≤ e.min_profit_percent) (hlt : q1 < q2) :
    calculate_min_acceptable_price e p1 ≤ calculate_min_acceptable_price e p2 := by
  simp only [calculate_min_acceptable_price, h1, h2]
  apply round2_mono
  have hd : q1 / (13/10) ≤ q2 / (13/10) :=
    (div_le_div_iff_of_pos_right (by norm_num)).mpr hlt.le
  have hb : q1 / (13/10) + e.base_delivery_cost ≤ q2 / (13/10) + e.base_delivery_cost := by
    linarith
  have hf : (0:ℚ) ≤ 1 + e.min_profit_percent / 100 := by linarith
  have key := mul_le_mul_of_nonneg_right hb hf
  ring_nf at key ⊢
  linarith

/-- C7 counterexample: with `min_profit_percent = -200` the profit
multiplier is negative and the floor is strictly decreasing in the price:
prices 1.3 < 2.6 give floors -6 > -7. -/
theorem min_price_not_monotone_for_negative_profit :
    prodP13.price = some (13/10) ∧ prodP26.price = some (26/10) ∧
    (13/10 : ℚ) < 26/10 ∧
    ¬ calculate_min_acceptable_price engNegProfit prodP13 ≤
        calculate_min_acceptable_price engNegProfit prodP26 := by
  refine ⟨rfl, rfl, by norm_num, ?_⟩
  norm_num [calculate_min_acceptable_price, engNegProfit, prodP13, prodP26,
    round2, roundHalfEven]

/-! Facts about the stable descending sort. -/

theorem pyInsertDescBy_perm {α : Type} (key : α → ℚ) (a : α) (l : List α) :
    (pyInsertDescBy key a l).Perm (a :: l) := by
  induction l with
  | nil => exact List.Perm.refl _
  | cons b t ih =>
    by_cases hc : key b ≤ key a
    · simp only [pyInsertDescBy, if_pos hc]
      exact List.Perm.refl _
    · simp only [pyInsertDescBy, if_neg hc]
      exact (ih.cons b).trans (List.Perm.swap a b t)

theorem pySortDescBy_perm {α : Type} (key : α → ℚ) (l : List α) :
    (pySortDescBy key l).Perm l := by
  induction l with
  | nil => exact List.Perm.refl _
  | cons a t ih =>
    exact (pyInsertDescBy_perm key a (pySortDescBy key t)).trans (ih.cons a)

theorem pairwise_pyInsertDescBy {α : Type} (key : α → ℚ) (a : α) (l : List α)
    (hl : List.Pairwise (fun x y => key y ≤ key x) l) :
    List.Pairwise (fun x y => key y ≤ key x) (pyInsertDescBy key a l) := by
  induction l with
  | nil => simp [pyInsertDescBy]
  | cons b t ih =>
    rw [List.pairwise_cons] at hl
    obtain ⟨hb, ht⟩ := hl
    by_cases hc : key b ≤ key a
    · simp only [pyInsertDescBy, if_pos hc]
      refine List.Pairwise.cons ?_ (List.Pairwise.cons hb ht)
      intro x hx
      rcases List.mem_cons.mp hx with h | h
      · subst h; exact hc
      · exact le_trans (hb x h) hc
    · simp only [pyInsertDescBy, if_neg hc]
      refine List.Pairwise.cons ?_ (ih ht)
      intro x hx
      rcases List.mem_cons.mp ((pyInsertDescBy_perm key a t).mem_iff.mp hx) with h | h
      · subst h; exact le_of_not_le hc
      · exact hb x h

theorem pairwise_pySortDescBy {α : Type} (key : α → ℚ) (l : List α) :
    List.Pairwise (fun x y => key y ≤ key x) (pySortDescBy key l) := by
  induction l with
  | nil => exact List.Pairwise.nil
  | cons a t ih => exact pairwise_pyInsertDescBy key a (pySortDescBy key t) ih

theorem take_pySortDescBy_mem {α : Type} (key : α → ℚ) (l : List α) (n : ℕ)
    (x : α) (h : x ∈ (pySortDescBy key l).take n) : x ∈ l :=
  (pySortDescBy_perm key l).mem_iff.mp (List.take_subset _ _ h)

theorem take_pySortDescBy_pairwise {α : Type} (key : α → ℚ) (l : List α) (n : ℕ) :
    List.Pairwise (fun x y => key y ≤ key x) ((pySortDescBy key l).take n) :=
  List.Pairwise.sublist (List.take_sublist _ _) (pairwise_pySortDescBy key l)

theorem take_pySortDescBy_length {α : Type} (key : α → ℚ) (l : List α) (n : ℕ) :
    ((pySortDescBy key l).take n).length = min n l.length := by
  rw [List.length_take, (pySortDescBy_perm key l).length_eq]

theorem take_pySortDescBy_top {α : Type} (key : α → ℚ) (l : List α) (n : ℕ)
    (q : α) (hq : q ∈ l) (hqnot : q ∉ (pySortDescBy key l).take n)
    (p : α) (hp : p ∈ (pySortDescBy key l).take n) : key q ≤ key p := by
  have hqS : q ∈ pySortDescBy key l := (pySortDescBy_perm key l).mem_iff.mpr hq
  have hsplit : q ∈ (pySortDescBy key l).take n ++ (pySortDescBy key l).drop n := by
    rw [List.take_append_drop]
    exact hqS
  have hpair : List.Pairwise (fun x y => key y ≤ key x)
      ((pySortDescBy key l).take n ++ (pySortDescBy key l).drop n) := by
    rw [List.take_append_drop]
    exact pairwise_pySortDescBy key l
  rw [List.pairwise_append] at hpair
  rcases List.mem_append.mp hsplit with h | h
  · exact absurd h hqnot
  · exact hpair.2.2 p hp q h

/-! Facts about the dict embedding. -/

theorem pyDictGet_pyDictSet_self {β : Type} (d : List (String × β)) (k : String) (v : β) :
    pyDictGet (pyDictSet d k v) k = some v := by
  induction d with
  | nil => simp [pyDictSet, pyDictGet]
  | cons p t ih =>
    obtain ⟨k0, v0⟩ := p
    by_cases h : k0 = k
    · simp [pyDictSet, pyDictGet, h]
    · simp [pyDictSet, pyDictGet, h, ih]

theorem pyDictGet_pyDictSet_ne {β : Type} (d : List (String × β)) (k k2 : String) (v : β)
    (h : k2 ≠ k) : pyDictGet (pyDictSet d k v) k2 = pyDictGet d k2 := by
  induction d with
  | nil => simp [pyDictSet, pyDictGet, Ne.symm h]
  | cons p t ih =>
    obtain ⟨k0, v0⟩ := p
    by_cases h0 : k0 = k
    · subst h0
      simp [pyDictSet, pyDictGet, Ne.symm h]
    · by_cases h2 : k0 = k2
      · simp [pyDictSet, pyDictGet, h0, h2, h]
      · simp [pyDictSet, pyDictGet, h0, h2, ih]

theorem setLastCounter_length (c : ℚ) (l : List NegotiationRound) :
    (setLastCounter c l).length = l.length := by
  induction l with
  | nil => rfl
  | cons r t ih =>
    cases t with
    | nil => rfl
    | cons r2 t2 => simpa [setLastCounter] using ih

/-! Facts about the similarity pipeline. -/

theorem calculate_similarity_score_cross_category (seqSim : String → String → ℚ)
    (p1 p2 : Product) (h : p1.category ≠ p2.category) :
    calculate_similarity_score seqSim p1 p2 = 0 := by
  unfold calculate_similarity_score
  rw [if_pos h]

theorem mem_find_similar_products (seqSim : String → String → ℚ)
    (products : List Product) (product : Product) (limit : ℕ)
    (pr : Product × ℚ) (h : pr ∈ find_similar_products seqSim products product limit) :
    pr.1 ∈ products ∧ pr.1.id ≠ product.id ∧
    pr.2 = calculate_similarity_score seqSim product pr.1 ∧ 0 < pr.2 := by
  unfold find_similar_products at h
  have h2 := List.take_subset _ _ h
  have h3 := (pySortDescBy_perm (fun x : Product × ℚ => x.2) _).mem_iff.mp h2
  rw [List.mem_filterMap] at h3
  obtain ⟨other, hmem, hsome⟩ := h3
  dsimp only at hsome
  by_cases hid : other.id = product.id
  · rw [if_pos hid] at hsome
    exact Option.noConfusion hsome
  · rw [if_neg hid] at hsome
    by_cases hpos : calculate_similarity_score seqSim product other > 0
    · rw [if_pos hpos] at hsome
      obtain rfl := Option.some.inj hsome
      exact ⟨hmem, hid, rfl, hpos⟩
    · rw [if_neg hpos] at hsome
      exact Option.noConfusion hsome

/-- C8: `find_similar_products` never returns the query product itself
(same identifier) and never returns a product from another category. -/
theorem find_similar_products_excludes_self_and_cross_category
    (seqSim : String → String → ℚ) (products : List Product) (product : Product)
    (limit : ℕ) (pr : Product × ℚ)
    (h : pr ∈ find_similar_products seqSim products product limit) :
    pr.1.id ≠ product.id ∧ pr.1.category = product.category := by
  obtain ⟨-, hid, hsc, hpos⟩ := mem_find_similar_products seqSim products product limit pr h
  refine ⟨hid, ?_⟩
  by_contra hcat
  rw [hsc, calculate_similarity_score_cross_category seqSim product pr.1
    (fun hh => hcat hh.symm)] at hpos
  exact lt_irrefl 0 hpos

theorem find_similar_products_excludes_witness :
    prodWithReviews.id ≠ prodNoReviews.id ∧
    prodWithReviews.category = prodNoReviews.category := by
  have hclean : clean_text "phone" = "phone" := by decide
  have hscore : calculate_similarity_score seqSimEq prodNoReviews prodWithReviews = 3/10 := by
    norm_num [calculate_similarity_score, calculate_text_similarity, hclean, seqSimEq,
      prodNoReviews, prodWithReviews]
    all_goals decide
  have e1 : prodNoReviews.id = "q" := rfl
  have e2 : prodWithReviews.id = "o" := rfl
  have e3 : (("o" : String) = "q") = False := by decide
  have hm : (prodWithReviews, (3/10 : ℚ)) ∈
      find_similar_products seqSimEq [prodNoReviews, prodWithReviews] prodNoReviews 5 := by
    norm_num [find_similar_products, List.filterMap_cons, e1, e2, e3, hscore,
      pySortDescBy, pyInsertDescBy]
  exact find_similar_products_excludes_self_and_cross_category seqSimEq
    [prodNoReviews, prodWithReviews] prodNoReviews 5 (prodWithReviews, 3/10) hm

/-- C1 (amended): with an empty view history the engine returns the
top-`limit` products **among those that carry a rating**, stably sorted by
rating descending; products without a rating are omitted entirely (they do
not rank below the rated ones — see the counterexample).  Conjunction:
every returned product is a rated catalog product, the output is weakly
descending in rating, its length is `limit` capped by the number of rated
products, and any rated catalog product left out rates no higher than
every returned product. -/
theorem personalized_recommendations_empty_viewed (seqSim : String → String → ℚ)
    (products : List Product) (limit : ℕ) :
    (∀ p ∈ get_personalized_recommendations seqSim products [] limit,
        p ∈ products ∧ p.rating.isSome) ∧
    List.Pairwise (fun a b => b.rating.getD 0 ≤ a.rating.getD 0)
      (get_personalized_recommendations seqSim products [] limit) ∧
    (get_personalized_recommendations seqSim products [] limit).length =
      min limit (products.filter (fun p => p.rating.isSome)).length ∧
    (∀ q ∈ products, q.rating.isSome →
        q ∉ get_personalized_recommendations seqSim products [] limit →
        ∀ p ∈ get_personalized_recommendations seqSim products [] limit,
          q.rating.getD 0 ≤ p.rating.getD 0) := by
  have hdef : get_personalized_recommendations seqSim products [] limit =
      (pySortDescBy (fun p => p.rating.getD 0)
        (products.filter (fun p => p.rating.isSome))).take limit := by
    simp [get_personalized_recommendations]
  rw [hdef]
  refine ⟨?_, ?_, ?_, ?_⟩
  · intro p hp
    exact List.mem_filter.mp (take_pySortDescBy_mem _ _ _ p hp)
  · exact take_pySortDescBy_pairwise (fun p : Product => p.rating.getD 0) _ limit
  · exact take_pySortDescBy_length (fun p : Product => p.rating.getD 0) _ limit
  · intro q hq hqsome hqnot p hp
    exact take_pySortDescBy_top (fun p : Product => p.rating.getD 0) _ limit
      q (List.mem_filter.mpr ⟨hq, hqsome⟩) hqnot p hp

/-- C1 counterexample: with the catalog [unrated, rated-4] and limit 2 the
empty-history recommendation returns only the rated product — the unrated
product is omitted, not ranked below the rated ones with a floor value. -/
theorem unrated_products_omitted_from_recommendations :
    prodUnrated ∈ [prodUnrated, prodRated] ∧ prodUnrated.rating = none ∧
    get_personalized_recommendations seqSimEq [prodUnrated, prodRated] [] 2 =
      [prodRated] := by
  refine ⟨by simp, rfl, ?_⟩
  norm_num [get_personalized_recommendations, pySortDescBy, pyInsertDescBy,
    prodUnrated, prodRated]

theorem personalized_recommendations_empty_viewed_witness :
    prodRated.rating.getD 0 ≤ prodRated5.rating.getD 0 := by
  have h := (personalized_recommendations_empty_viewed seqSimEq
    [prodRated5, prodRated] 1).2.2.2
  have hr : get_personalized_recommendations seqSimEq [prodRated5, prodRated] [] 1 =
      [prodRated5] := by
    norm_num [get_personalized_recommendations, pySortDescBy, pyInsertDescBy,
      prodRated, prodRated5]
  refine h prodRated (by simp) rfl ?_ prodRated5 ?_
  · rw [hr]
    norm_num [prodRated, prodRated5, Product.mk.injEq]
  · rw [hr]
    simp

/-! Facts about the better-alternatives loop. -/

theorem mapM_isSome_of_forall {α β : Type} (f : α → Option β) (l : List α)
    (h : ∀ x ∈ l, (f x).isSome) : (l.mapM f).isSome := by
  induction l with
  | nil => rfl
  | cons a t ih =>
    obtain ⟨b, hb⟩ := Option.isSome_iff_exists.mp (h a (List.mem_cons_self a t))
    obtain ⟨bs, hbs⟩ := Option.isSome_iff_exists.mp
      (ih (fun x hx => h x (List.mem_cons_of_mem a hx)))
    rw [List.mapM_cons, hb, hbs]
    rfl

/-- C2 (amended): provided the query product and every catalog product
carry a reviews count, `find_better_alternatives` does not raise; the other
ranking operations (`find_similar_products`,
`get_personalized_recommendations`, `find_relevant_products`) are total
functions of their inputs with absent optional fields contributing
zero/neutrally.  Without that proviso the review-volume comparison
`other.reviews > product.reviews * 1.5` raises `TypeError` on an absent
count (see the counterexample). -/
theorem find_better_alternatives_total_when_reviews_present
    (seqSim : String → String → ℚ) (products : List Product) (product : Product)
    (limit : ℕ) (hall : ∀ p ∈ products, p.reviews.isSome)
    (hq : product.reviews.isSome) :
    (find_better_alternatives seqSim products product limit).isSome := by
  unfold find_better_alternatives
  rw [show ∀ x : Option (List ((Product × ℚ) × Bool)), ∀ f, Option.map f x = f <$> x
      from fun _ _ => rfl, Option.isSome_map]
  apply mapM_isSome_of_forall
  intro x hx
  obtain ⟨hxmem, -, -, -⟩ := mem_find_similar_products seqSim products product 10 x hx
  obtain ⟨r1, h1⟩ := Option.isSome_iff_exists.mp hq
  obtain ⟨r2, h2⟩ := Option.isSome_iff_exists.mp (hall x.1 hxmem)
  simp [is_better_check, h1, h2]

/-- C2 counterexample: a catalog pairing the review-less query with one
similar product makes `find_better_alternatives` abort (Python raises
`TypeError` evaluating `other.reviews > product.reviews * 1.5` with
`product.reviews = None`), refuting that no ranking operation ever
raises. -/
theorem find_better_alternatives_raises_on_missing_reviews :
    prodNoReviews.reviews = none ∧
    find_better_alternatives seqSimEq [prodNoReviews, prodWithReviews]
      prodNoReviews 3 = none := by
  refine ⟨rfl, ?_⟩
  have hclean : clean_text "phone" = "phone" := by decide
  have hscore : calculate_similarity_score seqSimEq prodNoReviews prodWithReviews = 3/10 := by
    norm_num [calculate_similarity_score, calculate_text_similarity, hclean, seqSimEq,
      prodNoReviews, prodWithReviews]
    all_goals decide
  have e1 : prodNoReviews.id = "q" := rfl
  have e2 : prodWithReviews.id = "o" := rfl
  have e3 : (("o" : String) = "q") = False := by decide
  have hsim : find_similar_products seqSimEq [prodNoReviews, prodWithReviews]
      prodNoReviews 10 = [(prodWithReviews, 3/10)] := by
    norm_num [find_similar_products, List.filterMap_cons, e1, e2, e3, hscore,
      pySortDescBy, pyInsertDescBy]
  have hbc : is_better_check prodNoReviews prodWithReviews = none := rfl
  unfold find_better_alternatives
  rw [hsim]
  simp [List.mapM.loop, hbc]

theorem find_better_alternatives_total_witness :
    (find_better_alternatives seqSimEq [prodWithReviews, prodOtherCat]
      prodQueryRev 3).isSome :=
  find_better_alternatives_total_when_reviews_present seqSimEq
    [prodWithReviews, prodOtherCat] prodQueryRev 3
    (by intro p hp
        rcases List.mem_cons.mp hp with h | h
        · subst h; rfl
        · rcases List.mem_cons.mp h with h2 | h2
          · subst h2; rfl
          · exact absurd h2 (List.not_mem_nil p))
    rfl

theorem calculate_min_acceptable_price_mono_witness :
    calculate_min_acceptable_price engDefault prodPrice50 ≤
      calculate_min_acceptable_price engDefault prodPrice100 :=
  calculate_min_acceptable_price_mono engDefault prodPrice50 prodPrice100 50 100
    rfl rfl (by norm_num [engDefault]) (by norm_num)

/-! Facts about the reject branch and the lowball scenario. -/

theorem lowball_not_accept (r : ℕ) (price : ℚ) (hpos : 0 < price) :
    ¬ price / 10 ≥ price * accept_threshold r := by
  intro hcon
  have h1 := le_accept_threshold r
  have h2 : price * (82/100) ≤ price * accept_threshold r :=
    mul_le_mul_of_nonneg_left h1 hpos.le
  linarith

theorem lowball_not_counter (r : ℕ) (price : ℚ) (hpos : 0 < price) :
    ¬ price / 10 ≥ price * counter_threshold r := by
  intro hcon
  have h1 := le_counter_threshold r
  have h2 : price * (70/100) ≤ price * counter_threshold r :=
    mul_le_mul_of_nonneg_left h1 hpos.le
  linarith

theorem evaluate_offer_reject_state (gen : String → String → ℚ → ℚ → ℕ → String)
    (e : NegotiationEngine) (product : Product) (price offered_price : ℚ)
    (hp : product.price = some price)
    (hacc : ¬ offered_price ≥ price * accept_threshold (get_negotiation_round e product.id))
    (hctr : ¬ (offered_price ≥ price * counter_threshold (get_negotiation_round e product.id) ∧
               offered_price ≥ calculate_min_acceptable_price e product)) :
    (evaluate_offer gen e product offered_price).1.status = "rejected" ∧
    (evaluate_offer gen e product offered_price).2 =
      { e with negotiation_history := pyDictSet e.negotiation_history product.id (rejectedHistoryAfter e product price offered_price) } := by
  simp only [evaluate_offer, hp]
  rw [if_neg hacc, if_neg hctr]
  refine ⟨rfl, ?_⟩
  simp only [rejectedHistoryAfter]

theorem reject_lookup (gen : String → String → ℚ → ℚ → ℕ → String)
    (e : NegotiationEngine) (product : Product) (price offered_price : ℚ)
    (hp : product.price = some price)
    (hacc : ¬ offered_price ≥ price * accept_threshold (get_negotiation_round e product.id))
    (hctr : ¬ (offered_price ≥ price * counter_threshold (get_negotiation_round e product.id) ∧
               offered_price ≥ calculate_min_acceptable_price e product)) :
    pyDictGet (evaluate_offer gen e product offered_price).2.negotiation_history
        product.id = some (rejectedHistoryAfter e product price offered_price) := by
  rw [(evaluate_offer_reject_state gen e product price offered_price hp hacc hctr).2]
  exact pyDictGet_pyDictSet_self _ _ _

theorem lowball_lookup (gen : String → String → ℚ → ℚ → ℕ → String)
    (e : NegotiationEngine) (product : Product) (price : ℚ)
    (hp : product.price = some price) (hpos : 0 < price) :
    pyDictGet (evaluate_offer gen e product (price / 10)).2.negotiation_history
        product.id = some (rejectedHistoryAfter e product price (price / 10)) :=
  reject_lookup gen e product price (price / 10) hp
    (lowball_not_accept _ price hpos)
    (fun hcon => lowball_not_counter _ price hpos hcon.1)

/-- C6: an offer of 10% of a (positive) price is rejected in every round;
three successive such offers on a not-yet-negotiated product leave the
stored history status "rejected"; and a rejection marks the stored status
"rejected" exactly when it occurs in round 3 or later — earlier rejections
leave the previously stored status (initially "pending") untouched. -/
theorem evaluate_offer_lowball_rejected (gen : String → String → ℚ → ℚ → ℕ → String) :
    (∀ (e : NegotiationEngine) (product : Product) (price : ℚ),
      product.price = some price → 0 < price →
      (evaluate_offer gen e product (price / 10)).1.status = "rejected") ∧
    (∀ (e : NegotiationEngine) (product : Product) (price : ℚ),
      product.price = some price → 0 < price →
      pyDictGet e.negotiation_history product.id = none →
      (pyDictGet (evaluate_offer gen
          (evaluate_offer gen
            (evaluate_offer gen e product (price / 10)).2
            product (price / 10)).2
          product (price / 10)).2.negotiation_history product.id).map
        (fun h => h.status) = some "rejected") ∧
    (∀ (e : NegotiationEngine) (product : Product) (price offered_price : ℚ),
      product.price = some price →
      ¬ offered_price ≥ price * accept_threshold (get_negotiation_round e product.id) →
      ¬ (offered_price ≥ price * counter_threshold (get_negotiation_round e product.id) ∧
         offered_price ≥ calculate_min_acceptable_price e product) →
      (pyDictGet (evaluate_offer gen e product offered_price).2.negotiation_history
          product.id).map (fun h => h.status) =
        some (if get_negotiation_round e product.id ≥ 3 then "rejected"
              else match pyDictGet e.negotiation_history product.id with
                   | some h => h.status
                   | none => "pending")) := by
  refine ⟨?_, ?_, ?_⟩
  · intro e product price hp hpos
    exact (evaluate_offer_reject_state gen e product price (price / 10) hp
      (lowball_not_accept _ price hpos)
      (fun hcon => lowball_not_counter _ price hpos hcon.1)).1
  · intro e product price hp hpos hnone
    have hr0 : get_negotiation_round e product.id = 1 := by
      simp [get_negotiation_round, hnone]
    have hl1 := lowball_lookup gen e product price hp hpos
    have hlen1 : (rejectedHistoryAfter e product price (price / 10)).negotiation_rounds.length = 1 := by
      simp [rejectedHistoryAfter, hnone, hr0, initialHistory]
    generalize hE1 : (evaluate_offer gen e product (price / 10)).2 = E1 at hl1 ⊢
    have hr1 : get_negotiation_round E1 product.id = 2 := by
      simp [get_negotiation_round, hl1, hlen1]
    have hl2 := lowball_lookup gen E1 product price hp hpos
    have hlen2 : (rejectedHistoryAfter E1 product price (price / 10)).negotiation_rounds.length = 2 := by
      simp [rejectedHistoryAfter, hl1, hr1, hnone, hr0, initialHistory]
    generalize hE2 : (evaluate_offer gen E1 product (price / 10)).2 = E2 at hl2 ⊢
    have hr2 : get_negotiation_round E2 product.id = 3 := by
      simp [get_negotiation_round, hl2, hlen2]
    rw [lowball_lookup gen E2 product price hp hpos]
    simp [rejectedHistoryAfter, hr2]
  · intro e product price offered_price hp hacc hctr
    rw [reject_lookup gen e product price offered_price hp hacc hctr]
    rcases hh : pyDictGet e.negotiation_history product.id with _ | h0 <;>
      by_cases hr : get_negotiation_round e product.id ≥ 3 <;>
        simp [rejectedHistoryAfter, hh, hr, initialHistory]

theorem evaluate_offer_lowball_rejected_witness :
    (evaluate_offer genTrivial engDefault prodPrice50 (50 / 10)).1.status = "rejected" ∧
    (pyDictGet (evaluate_offer genTrivial
        (evaluate_offer genTrivial
          (evaluate_offer genTrivial engDefault prodPrice50 (50 / 10)).2
          prodPrice50 (50 / 10)).2
        prodPrice50 (50 / 10)).2.negotiation_history prodPrice50.id).map
      (fun h => h.status) = some "rejected" ∧
    (pyDictGet (evaluate_offer genTrivial engDefault prodPrice50 5).2.negotiation_history
        prodPrice50.id).map (fun h => h.status) = some "pending" := by
  have h := evaluate_offer_lowball_rejected genTrivial
  refine ⟨h.1 engDefault prodPrice50 50 rfl (by norm_num),
          h.2.1 engDefault prodPrice50 50 rfl (by norm_num) rfl, ?_⟩
  have h3 := h.2.2 engDefault prodPrice50 50 5 rfl
    (by norm_num [get_negotiation_round, pyDictGet, engDefault, prodPrice50,
      accept_threshold])
    (by norm_num [get_negotiation_round, pyDictGet, engDefault, prodPrice50,
      counter_threshold])
  simpa [get_negotiation_round, pyDictGet, engDefault, prodPrice50] using h3

/-- C9: on a product with a present price, `evaluate_offer` leaves the
configuration constants and every history entry keyed by another product
identifier untouched; the entry for the product's own identifier exists
afterwards, has exactly one more round record than before the call (the
pre-call round count plus one is exactly `get_negotiation_round`), and its
`product_id` and `original_price` fields are unchanged (set to the
product's identifier and current price on a fresh entry). -/
theorem evaluate_offer_frame (gen : String → String → ℚ → ℚ → ℕ → String)
    (e : NegotiationEngine) (product : Product) (price offered_price : ℚ)
    (hp : product.price = some price) :
    (evaluate_offer gen e product offered_price).2.base_delivery_cost =
      e.base_delivery_cost ∧
    (evaluate_offer gen e product offered_price).2.min_profit_percent =
      e.min_profit_percent ∧
    (∀ k, k ≠ product.id →
      pyDictGet (evaluate_offer gen e product offered_price).2.negotiation_history k =
        pyDictGet e.negotiation_history k) ∧
    (pyDictGet (evaluate_offer gen e product offered_price).2.negotiation_history
        product.id).map (fun h => h.negotiation_rounds.length) =
      some (get_negotiation_round e product.id) ∧
    (pyDictGet (evaluate_offer gen e product offered_price).2.negotiation_history
        product.id).map (fun h => h.product_id) =
      some (match pyDictGet e.negotiation_history product.id with
            | some h => h.product_id
            | none => product.id) ∧
    (pyDictGet (evaluate_offer gen e product offered_price).2.negotiation_history
        product.id).map (fun h => h.original_price) =
      some (match pyDictGet e.negotiation_history product.id with
            | some h => h.original_price
            | none => price) := by
  rcases hh : pyDictGet e.negotiation_history product.id with _ | h0 <;>
    (simp only [evaluate_offer, hp, hh, get_negotiation_round]
     split_ifs <;>
       refine ⟨rfl, rfl, fun k hk => pyDictGet_pyDictSet_ne _ _ _ _ hk, ?_, ?_, ?_⟩ <;>
         simp [pyDictGet_pyDictSet_self, setLastCounter_length, initialHistory])

theorem evaluate_offer_frame_witness :
    (evaluate_offer genTrivial engDefault prodPrice50 30).2.base_delivery_cost =
      engDefault.base_delivery_cost ∧
    (pyDictGet (evaluate_offer genTrivial engDefault prodPrice50 30).2.negotiation_history
        prodPrice50.id).map (fun h => h.negotiation_rounds.length) =
      some (get_negotiation_round engDefault prodPrice50.id) ∧
    pyDictGet (evaluate_offer genTrivial engDefault prodPrice50 30).2.negotiation_history
        "other" = pyDictGet engDefault.negotiation_history "other" := by
  have h := evaluate_offer_frame genTrivial engDefault prodPrice50 50 30 rfl
  exact ⟨h.1, h.2.2.2.1, h.2.2.1 "other" (by decide)⟩

end SmartShop
